import Mathlib

/-! Library panel handler (pkg/grafana/library-panel-handler.go)

A shallow embedding of the Grizzly handler for Grafana library panels and the
properties of its operations: validation, preparation for comparison, file
naming, and the four remote operations (list, get by UID, create, update).

Log statements (`log.Infof`, `SpecAsJSON` used only for logging) have no effect
on results and are left out of the embedding. `grizzly.Resource`, its accessors
and `structToMap` are declared elsewhere in the repository; their definitions
here say so.
-/

set_option autoImplicit false

namespace Grizzly

/-! ## Data model -/

/-- JSON-shaped data held behind Go's `interface{}` (specification entries and
model payloads). A number is integer-valued; whether Go holds it as an integer
or as a `float64` is not distinguished. -/
inductive Value where
  | null
  | bool (b : Bool)
  | num (n : Int)
  | str (s : String)
  | arr (items : List Value)
  | obj (fields : List (String × Value))

/-- Go `error` values seen by the handler. `ErrNotFound` is the sentinel
`grizzly.ErrNotFound`; `GetLibraryElementByUIDNotFound` is the API client's
typed "not found" response; `message` is any other error, identified by its
text; `wrap` is an error wrapping a cause (the chain `errors.As` walks). -/
inductive Error where
  | ErrNotFound
  | GetLibraryElementByUIDNotFound
  | message (text : String)
  | wrap (text : String) (cause : Error)
  deriving DecidableEq, Repr

/-- Modelled from the spec: `grizzly.Resource` is declared outside this file.
A declared resource is identified by (apiVersion, kind, name,
specification-map); the specification map is a Go `map[string]interface{}`,
kept here as an association list read through `List.lookup`. -/
structure Resource where
  apiVersion : String
  kind : String
  name : String
  spec : List (String × Value)

namespace Resource

/-- Modelled from the spec: `Resource.Name()`, the resource's name. -/
def Name (r : Resource) : String := r.name

/-- Modelled from the spec: `Resource.UID()`; the resource's remote identifier
is its name. -/
def UID (r : Resource) : String := r.name

/-- Modelled from the spec: `Resource.Spec()`, the specification map. -/
def Spec (r : Resource) : List (String × Value) := r.spec

/-- Modelled from the spec: `Resource.GetSpecString(key)` reports the string
held under `key` in the specification and whether the key is present. Its
result is a Go `string`, so the read is defined when the key is absent or holds
a string; for an entry of another type there is no string to report and the
read yields `none`. -/
def GetSpecString (r : Resource) (key : String) : Option (String × Bool) :=
  match r.spec.lookup key with
  | none => some ("", false)
  | some (Value.str s) => some (s, true)
  | some _ => none

/-- Modelled from the spec: `Resource.DeleteSpecKey(key)` removes `key` from
the specification map; the result is the receiver after the call. -/
def DeleteSpecKey (r : Resource) (key : String) : Resource :=
  { r with spec := r.spec.filter (fun kv => kv.1 != key) }

end Resource

/-- Modelled from the spec: `grizzly.NewResource(apiVersion, kind, name, spec)`
builds a resource from its four components. -/
def NewResource (apiVersion kind name : String) (spec : List (String × Value)) : Resource :=
  { apiVersion := apiVersion, kind := kind, name := name, spec := spec }

/-! ## Formatting -/

/-- The fragment of `fmt.Sprintf` / `fmt.Errorf` used by the handler: each
`%s` verb is replaced by the next string argument (arguments are copied, not
re-scanned); a verb without an argument prints Go's missing-argument marker. -/
def sprintfChars : List Char → List String → List Char
  | '%' :: 's' :: rest, a :: args => a.data ++ sprintfChars rest args
  | '%' :: 's' :: rest, [] => "%!s(MISSING)".data ++ sprintfChars rest []
  | c :: rest, args => c :: sprintfChars rest args
  | [], _ => []

/-- The `fmt.Sprintf` call on a format string and its string arguments. -/
def Sprintf (format : String) (args : List String) : String :=
  String.mk (sprintfChars format.data args)

/-! ## Local operations of the handler -/

/-- The handler's `Kind()`. -/
def Kind : String := "LibraryPanel"

/-- The handler's `GetExtension()`. -/
def GetExtension : String := "json"

/-- The constant `libraryPanelGlob`. -/
def libraryPanelGlob : String := "library-panel/library-panel-*"

/-- The constant `libraryPanelPattern`. -/
def libraryPanelPattern : String := "library-panel/library-panel-%s.%s"

/-- The handler's `Validate(resource)`. The result pairs the returned error
(`none` is Go's `nil`) with the resource as it stands after the call; the
outer `none` arises only when the `uid` read itself is undefined. -/
def Validate (resource : Resource) : Option (Option Error × Resource) :=
  match resource.GetSpecString "uid" with
  | none => none
  | some (uid, exist) =>
    if exist then
      if uid ≠ resource.Name then
        some (some (Error.message
          (Sprintf "uid '%s' and name '%s', don't match" [uid, resource.Name])), resource)
      else
        some (none, resource)
    else
      some (none, resource)

/-- The handler's `ResourceFilePath(resource, filetype)`. -/
def ResourceFilePath (resource : Resource) (filetype : String) : String :=
  Sprintf libraryPanelPattern [resource.Name, filetype]

/-- The handler's `Unprepare(resource)`: deletes the specification key `id` on
its copy of the resource and returns it. -/
def Unprepare (resource : Resource) : Resource :=
  resource.DeleteSpecKey "id"

/-- The handler's `Prepare(existing, resource)`. -/
def Prepare (_existing resource : Resource) : Resource :=
  resource

/-- The handler's `GetUID(resource)`; it never returns an error. -/
def GetUID (resource : Resource) : Except Error String :=
  Except.ok resource.Name

/-! ## Remote API

The generated API bindings (`models`, `library_elements`) are an external
library. The request bodies carry all their fields. The element carries the
fields a request can set and the service-managed id and version; its remaining
fields (description, meta, orgId, schemaVersion, type) are set by no code here,
stay at their zero value and are dropped by `omitempty` wherever the element is
written as JSON. -/

/-- The service-side element (`models.LibraryElementDTO`). -/
structure LibraryElementDTO where
  FolderID : Int
  FolderUID : String
  ID : Int
  Kind : Int
  Model : Value
  Name : String
  UID : String
  Version : Int

/-- The `Result` of a list response: the reported elements and the reported
total count (a Go `int64`). -/
structure LibraryElementSearchResult where
  Elements : List LibraryElementDTO
  TotalCount : Int

/-- The payload of a successful list response. -/
structure LibraryElementSearchResponse where
  Result : LibraryElementSearchResult

/-- The payload of a successful get-by-UID (or create, or update) response;
as in the list payload, the element sits under `Result`. -/
structure LibraryElementResponse where
  Result : LibraryElementDTO

/-- The body of a create request (`models.CreateLibraryElementCommand`);
`Model` is an `interface{}`, `nil` being `Value.null`. -/
structure CreateLibraryElementCommand where
  FolderID : Int
  FolderUID : String
  Kind : Int
  Model : Value
  Name : String
  UID : String

/-- The body of a patch request (`models.PatchLibraryElementCommand`). -/
structure PatchLibraryElementCommand where
  FolderID : Int
  FolderUID : String
  Kind : Int
  Model : Value
  Name : String
  UID : String
  Version : Int

/-- A request submitted to the remote service. -/
inductive Request where
  | GetLibraryElements
  | GetLibraryElementByUID (uid : String)
  | CreateLibraryElement (body : CreateLibraryElementCommand)
  | UpdateLibraryElement (uid : String) (body : PatchLibraryElementCommand)

/-- The `LibraryElements` service of an API client, over a remote service in
state `σ`: each call yields its result and the service's next state. -/
structure LibraryElements (σ : Type) where
  GetLibraryElements : σ → Except Error LibraryElementSearchResponse × σ
  GetLibraryElementByUID : String → σ → Except Error LibraryElementResponse × σ
  CreateLibraryElement : CreateLibraryElementCommand → σ → Except Error LibraryElementResponse × σ
  UpdateLibraryElement :
    String → PatchLibraryElementCommand → σ → Except Error LibraryElementResponse × σ

/-- The provider capability, taken to implement `ClientProvider`: its
`APIVersion()` and the outcome of `Client()`. -/
structure Provider (σ : Type) where
  APIVersion : String
  Client : Except Error (LibraryElements σ)

/-- `LibraryPanelHandler` holds the provider. -/
structure LibraryPanelHandler (σ : Type) where
  Provider : Provider σ

/-- What one remote operation of the handler leaves behind: the value or error
it returns, the state of the remote service, and the requests it submitted, in
order. -/
structure Outcome (σ α : Type) where
  ret : Except Error α
  state : σ
  sent : List Request

/-- The handler's `APIVersion()`. -/
def LibraryPanelHandler.APIVersion {σ : Type} (h : LibraryPanelHandler σ) : String :=
  h.Provider.APIVersion

/-- The call `errors.As(err, &gErr)` with `gErr` of type
`*library_elements.GetLibraryElementByUIDNotFound`: whether the error or one of
its causes is the typed not-found response. -/
def Error.AsGetLibraryElementByUIDNotFound : Error → Bool
  | Error.GetLibraryElementByUIDNotFound => true
  | Error.wrap _ cause => cause.AsGetLibraryElementByUIDNotFound
  | _ => false

/-! ## JSON conversions (`encoding/json`) -/

/-- The `float64` nearest to an integer (ties to even): the value a JSON number
has once it is read back into an `interface{}`. Integers below 2^53 in
magnitude are kept as they are. -/
def float64OfInt (n : Int) : Int :=
  let a := n.natAbs
  if a < 2 ^ 53 then n
  else
    let e := Nat.log2 a - 52
    let q := a / 2 ^ e
    let r := a % 2 ^ e
    let half := 2 ^ (e - 1)
    let q1 := if half < r ∨ (r = half ∧ q % 2 = 1) then q + 1 else q
    if n < 0 then -((q1 * 2 ^ e : Nat) : Int) else ((q1 * 2 ^ e : Nat) : Int)

mutual
/-- A value written as JSON and read back into an `interface{}`: every number
becomes a `float64`; everything else is kept. -/
def jsonRoundTrip : Value → Value
  | Value.null => Value.null
  | Value.bool b => Value.bool b
  | Value.num n => Value.num (float64OfInt n)
  | Value.str s => Value.str s
  | Value.arr items => Value.arr (jsonRoundTripItems items)
  | Value.obj fields => Value.obj (jsonRoundTripFields fields)
/-- The items of an array, each written and read back. -/
def jsonRoundTripItems : List Value → List Value
  | [] => []
  | v :: rest => jsonRoundTrip v :: jsonRoundTripItems rest
/-- The entries of an object, each value written and read back. -/
def jsonRoundTripFields : List (String × Value) → List (String × Value)
  | [] => []
  | (k, v) :: rest => (k, jsonRoundTrip v) :: jsonRoundTripFields rest
end

/-- The entries of a map, one per key: of several entries with one key the
association list reads the first, so the first is kept. `seen` holds the keys
already met. -/
def uniqueKeys (seen : List String) : List (String × Value) → List (String × Value)
  | [] => []
  | kv :: rest =>
    if seen.contains kv.1 then uniqueKeys seen rest
    else kv :: uniqueKeys (kv.1 :: seen) rest

/-- The order of Go strings, byte by byte; on UTF-8 text it is the order of
the code points. -/
def charsLess : List Char → List Char → Bool
  | [], [] => false
  | [], _ :: _ => true
  | _ :: _, [] => false
  | a :: as, b :: bs =>
    if a.toNat < b.toNat then true
    else if b.toNat < a.toNat then false
    else charsLess as bs

/-- Insertion of an entry into entries sorted by key. -/
def insertByKey (kv : String × Value) : List (String × Value) → List (String × Value)
  | [] => [kv]
  | x :: rest =>
    if charsLess kv.1.data x.1.data then kv :: x :: rest else x :: insertByKey kv rest

/-- Entries sorted by key, the order in which `json.Marshal` writes a map. -/
def sortByKey : List (String × Value) → List (String × Value)
  | [] => []
  | kv :: rest => insertByKey kv (sortByKey rest)

/-- The call `json.Marshal(resource.Spec())`: the specification map as a JSON
object, one entry per key, keys sorted. A map of JSON-shaped values always
marshals. -/
def jsonMarshal (spec : List (String × Value)) : Except Error Value :=
  Except.ok (Value.obj (sortByKey (uniqueKeys [] spec)))

/-- The fold of one character of a key: ASCII letters to upper case, and the
two other runes that fold to an ASCII letter (long s U+017F, Kelvin sign
U+212A) to that letter. -/
def foldChar (c : Char) : Char :=
  if c = Char.ofNat 0x017F then 'S'
  else if c = Char.ofNat 0x212A then 'K'
  else c.toUpper

/-- The folded form of a key: `json.Unmarshal` matches an object key to the
struct field whose JSON name has the same folded form, whatever the letter
case. -/
def foldName (key : String) : String :=
  String.mk (key.data.map foldChar)

/-- The word by which `json.Unmarshal` names a JSON value in a type error. -/
def jsonKind : Value → String
  | Value.null => "null"
  | Value.bool _ => "bool"
  | Value.num n => "number " ++ toString n
  | Value.str _ => "string"
  | Value.arr _ => "array"
  | Value.obj _ => "object"

/-- The `UnmarshalTypeError` for a value that does not fit a struct field. -/
def unmarshalTypeError (v : Value) (structName fieldName goType : String) : Error :=
  Error.message (Sprintf "json: cannot unmarshal %s into Go struct field %s.%s of type %s"
    [jsonKind v, structName, fieldName, goType])

/-- Decoding of a JSON value into a `string` field holding `current`: a string
is stored, `null` leaves the field as it is, any other value is a type error. -/
def decodeString (structName fieldName : String) (current : String) (v : Value) :
    Except Error String :=
  match v with
  | Value.null => Except.ok current
  | Value.str s => Except.ok s
  | _ => Except.error (unmarshalTypeError v structName fieldName "string")

/-- Decoding of a JSON value into an `int64` field holding `current`: a number
within the `int64` range is stored, `null` leaves the field as it is, any other
value is a type error. -/
def decodeInt64 (structName fieldName : String) (current : Int) (v : Value) :
    Except Error Int :=
  match v with
  | Value.null => Except.ok current
  | Value.num n =>
    if -(2 ^ 63) ≤ n ∧ n < 2 ^ 63 then Except.ok n
    else Except.error (unmarshalTypeError v structName fieldName "int64")
  | _ => Except.error (unmarshalTypeError v structName fieldName "int64")

/-- Decoding of a JSON value into an `interface{}` field: any value is stored
as read back from JSON (`null` stores `nil`). -/
def decodeAny (v : Value) : Value :=
  jsonRoundTrip v

/-- The error `json.Unmarshal` reports at the end: the first one it met. -/
def firstError (err : Option Error) (e : Error) : Option Error :=
  match err with
  | some e0 => some e0
  | none => some e

/-- One object entry decoded into a `models.CreateLibraryElementCommand`: the
field is found by the folded key, a type error is recorded and decoding goes
on, an entry for no field is skipped. -/
def unmarshalCreateEntry (st : CreateLibraryElementCommand × Option Error)
    (kv : String × Value) : CreateLibraryElementCommand × Option Error :=
  if foldName kv.1 = foldName "folderId" then
    match decodeInt64 "CreateLibraryElementCommand" "folderId" st.1.FolderID kv.2 with
    | Except.ok n => ({ st.1 with FolderID := n }, st.2)
    | Except.error e => (st.1, firstError st.2 e)
  else if foldName kv.1 = foldName "folderUid" then
    match decodeString "CreateLibraryElementCommand" "folderUid" st.1.FolderUID kv.2 with
    | Except.ok x => ({ st.1 with FolderUID := x }, st.2)
    | Except.error e => (st.1, firstError st.2 e)
  else if foldName kv.1 = foldName "kind" then
    match decodeInt64 "CreateLibraryElementCommand" "kind" st.1.Kind kv.2 with
    | Except.ok n => ({ st.1 with Kind := n }, st.2)
    | Except.error e => (st.1, firstError st.2 e)
  else if foldName kv.1 = foldName "model" then
    ({ st.1 with Model := decodeAny kv.2 }, st.2)
  else if foldName kv.1 = foldName "name" then
    match decodeString "CreateLibraryElementCommand" "name" st.1.Name kv.2 with
    | Except.ok x => ({ st.1 with Name := x }, st.2)
    | Except.error e => (st.1, firstError st.2 e)
  else if foldName kv.1 = foldName "uid" then
    match decodeString "CreateLibraryElementCommand" "uid" st.1.UID kv.2 with
    | Except.ok x => ({ st.1 with UID := x }, st.2)
    | Except.error e => (st.1, firstError st.2 e)
  else st

/-- The call `json.Unmarshal(data, &panel)` for a zero
`models.CreateLibraryElementCommand`: the entries of the object are decoded in
the order written; `null` leaves the zero struct; a document that is no object
is a type error. -/
def unmarshalCreateLibraryElementCommand (data : Value) :
    Except Error CreateLibraryElementCommand :=
  match data with
  | Value.obj fields =>
    match fields.foldl unmarshalCreateEntry (⟨0, "", 0, Value.null, "", ""⟩, none) with
    | (panel, none) => Except.ok panel
    | (_, some err) => Except.error err
  | Value.null => Except.ok ⟨0, "", 0, Value.null, "", ""⟩
  | _ => Except.error (Error.message (Sprintf "json: cannot unmarshal %s into Go value of type %s"
      [jsonKind data, "models.CreateLibraryElementCommand"]))

/-- One object entry decoded into a `models.PatchLibraryElementCommand`. -/
def unmarshalPatchEntry (st : PatchLibraryElementCommand × Option Error)
    (kv : String × Value) : PatchLibraryElementCommand × Option Error :=
  if foldName kv.1 = foldName "folderId" then
    match decodeInt64 "PatchLibraryElementCommand" "folderId" st.1.FolderID kv.2 with
    | Except.ok n => ({ st.1 with FolderID := n }, st.2)
    | Except.error e => (st.1, firstError st.2 e)
  else if foldName kv.1 = foldName "folderUid" then
    match decodeString "PatchLibraryElementCommand" "folderUid" st.1.FolderUID kv.2 with
    | Except.ok x => ({ st.1 with FolderUID := x }, st.2)
    | Except.error e => (st.1, firstError st.2 e)
  else if foldName kv.1 = foldName "kind" then
    match decodeInt64 "PatchLibraryElementCommand" "kind" st.1.Kind kv.2 with
    | Except.ok n => ({ st.1 with Kind := n }, st.2)
    | Except.error e => (st.1, firstError st.2 e)
  else if foldName kv.1 = foldName "model" then
    ({ st.1 with Model := decodeAny kv.2 }, st.2)
  else if foldName kv.1 = foldName "name" then
    match decodeString "PatchLibraryElementCommand" "name" st.1.Name kv.2 with
    | Except.ok x => ({ st.1 with Name := x }, st.2)
    | Except.error e => (st.1, firstError st.2 e)
  else if foldName kv.1 = foldName "uid" then
    match decodeString "PatchLibraryElementCommand" "uid" st.1.UID kv.2 with
    | Except.ok x => ({ st.1 with UID := x }, st.2)
    | Except.error e => (st.1, firstError st.2 e)
  else if foldName kv.1 = foldName "version" then
    match decodeInt64 "PatchLibraryElementCommand" "version" st.1.Version kv.2 with
    | Except.ok n => ({ st.1 with Version := n }, st.2)
    | Except.error e => (st.1, firstError st.2 e)
  else st

/-- The call `json.Unmarshal(data, &panel)` for a zero
`models.PatchLibraryElementCommand`. -/
def unmarshalPatchLibraryElementCommand (data : Value) :
    Except Error PatchLibraryElementCommand :=
  match data with
  | Value.obj fields =>
    match fields.foldl unmarshalPatchEntry (⟨0, "", 0, Value.null, "", "", 0⟩, none) with
    | (panel, none) => Except.ok panel
    | (_, some err) => Except.error err
  | Value.null => Except.ok ⟨0, "", 0, Value.null, "", "", 0⟩
  | _ => Except.error (Error.message (Sprintf "json: cannot unmarshal %s into Go value of type %s"
      [jsonKind data, "models.PatchLibraryElementCommand"]))

/-- A number field written under `omitempty`: left out when zero, else the
number as read back from JSON. -/
def omitemptyInt (name : String) (n : Int) : List (String × Value) :=
  if n = 0 then [] else [(name, Value.num (float64OfInt n))]

/-- A string field written under `omitempty`: left out when empty. -/
def omitemptyString (name : String) (s : String) : List (String × Value) :=
  if s = "" then [] else [(name, Value.str s)]

/-- An `interface{}` field written under `omitempty`: left out when `nil`,
else the value as read back from JSON. -/
def omitemptyAny (name : String) (v : Value) : List (String × Value) :=
  match v with
  | Value.null => []
  | _ => [(name, jsonRoundTrip v)]

/-- Modelled from the spec: `structToMap` is declared outside this file. It
copies the fields of the struct it is given into a map keyed by the fields'
JSON names, by writing the struct as JSON and reading it back as a map. Here
the struct is the get-by-UID payload: its one field `result` holds the element,
whose fields are all `omitempty`. -/
def structToMap (panel : LibraryElementResponse) : Except Error (List (String × Value)) :=
  Except.ok
    [("result", Value.obj
      (omitemptyInt "folderId" panel.Result.FolderID ++
       omitemptyString "folderUid" panel.Result.FolderUID ++
       omitemptyInt "id" panel.Result.ID ++
       omitemptyInt "kind" panel.Result.Kind ++
       omitemptyAny "model" panel.Result.Model ++
       omitemptyString "name" panel.Result.Name ++
       omitemptyString "uid" panel.Result.UID ++
       omitemptyInt "version" panel.Result.Version))]

/-! ## Remote operations of the handler -/

/-- The loop `for i, panel := range panels.Elements { uids[i] = panel.UID }`,
started at index `i`. An index outside `uids` is a run-time panic (`none`). -/
def fillUIDs : List LibraryElementDTO → Nat → List String → Option (List String)
  | [], _, uids => some uids
  | panel :: rest, i, uids =>
    if i < uids.length then fillUIDs rest (i + 1) (uids.set i panel.UID) else none

/-- The size in bytes of a Go `string` value on a 64-bit platform. -/
def stringSize : Nat := 16

/-- The Go runtime's `maxAlloc` on a 64-bit platform: the most bytes one
allocation may ask for. -/
def maxAlloc : Nat := 2 ^ 48

/-- The call `make([]string, n)` for an `int64` length: a slice of `n` empty
strings, or a run-time panic (`none`, "makeslice: len out of range") for a
negative length or one whose `n * stringSize` bytes exceed `maxAlloc`. An
allocation that passes this check is taken to succeed. -/
def makeStrings (n : Int) : Option (List String) :=
  if n < 0 ∨ maxAlloc < stringSize * n.toNat then none
  else some (List.replicate n.toNat "")

/-- The handler's `getRemoteLibraryPanelList()`. The outer `none` is a run-time
panic while building the UID slice. -/
def getRemoteLibraryPanelList {σ : Type} (h : LibraryPanelHandler σ) (s : σ) :
    Option (Outcome σ (List String)) :=
  match h.Provider.Client with
  | Except.error err => some ⟨Except.error err, s, []⟩
  | Except.ok client =>
    match client.GetLibraryElements s with
    | (Except.error err, s1) => some ⟨Except.error err, s1, [Request.GetLibraryElements]⟩
    | (Except.ok panelsOk, s1) =>
      let panels := panelsOk.Result
      match makeStrings panels.TotalCount with
      | none => none
      | some uids0 =>
        match fillUIDs panels.Elements 0 uids0 with
        | none => none
        | some uids => some ⟨Except.ok uids, s1, [Request.GetLibraryElements]⟩

/-- The handler's `getRemoteLibraryPanel(uid)`. -/
def getRemoteLibraryPanel {σ : Type} (h : LibraryPanelHandler σ) (uid : String) (s : σ) :
    Outcome σ Resource :=
  match h.Provider.Client with
  | Except.error err => ⟨Except.error err, s, []⟩
  | Except.ok client =>
    match client.GetLibraryElementByUID uid s with
    | (Except.error err, s1) =>
      if err.AsGetLibraryElementByUIDNotFound then
        ⟨Except.error Error.ErrNotFound, s1, [Request.GetLibraryElementByUID uid]⟩
      else
        ⟨Except.error err, s1, [Request.GetLibraryElementByUID uid]⟩
    | (Except.ok panel, s1) =>
      match structToMap panel with
      | Except.error err => ⟨Except.error err, s1, [Request.GetLibraryElementByUID uid]⟩
      | Except.ok spec =>
        ⟨Except.ok (NewResource h.APIVersion Kind uid spec), s1,
          [Request.GetLibraryElementByUID uid]⟩

/-- The handler's `postLibraryPanel(resource)`. -/
def postLibraryPanel {σ : Type} (h : LibraryPanelHandler σ) (resource : Resource) (s : σ) :
    Outcome σ Unit :=
  match jsonMarshal resource.Spec with
  | Except.error err => ⟨Except.error err, s, []⟩
  | Except.ok data =>
    match unmarshalCreateLibraryElementCommand data with
    | Except.error err => ⟨Except.error err, s, []⟩
    | Except.ok panel0 =>
      let panel1 := { panel0 with Name := resource.Name }
      let panel2 := { panel1 with UID := resource.UID }
      let panel := { panel2 with Model := Value.obj resource.Spec }
      match h.Provider.Client with
      | Except.error err => ⟨Except.error err, s, []⟩
      | Except.ok client =>
        match client.CreateLibraryElement panel s with
        | (Except.error err, s1) =>
          ⟨Except.error err, s1, [Request.CreateLibraryElement panel]⟩
        | (Except.ok _, s1) =>
          ⟨Except.ok (), s1, [Request.CreateLibraryElement panel]⟩

/-- The handler's `putLibraryPanel(resource)`. -/
def putLibraryPanel {σ : Type} (h : LibraryPanelHandler σ) (resource : Resource) (s : σ) :
    Outcome σ Unit :=
  match jsonMarshal resource.Spec with
  | Except.error err => ⟨Except.error err, s, []⟩
  | Except.ok data =>
    match unmarshalPatchLibraryElementCommand data with
    | Except.error err => ⟨Except.error err, s, []⟩
    | Except.ok panel =>
      match h.Provider.Client with
      | Except.error err => ⟨Except.error err, s, []⟩
      | Except.ok client =>
        match client.UpdateLibraryElement panel.UID panel s with
        | (Except.error err, s1) =>
          ⟨Except.error err, s1, [Request.UpdateLibraryElement panel.UID panel]⟩
        | (Except.ok _, s1) =>
          ⟨Except.ok (), s1, [Request.UpdateLibraryElement panel.UID panel]⟩

/-- The handler's `GetByUID(UID)`. -/
def GetByUID {σ : Type} (h : LibraryPanelHandler σ) (UID : String) (s : σ) :
    Outcome σ Resource :=
  getRemoteLibraryPanel h UID s

/-- The handler's `GetRemote(resource)`. -/
def GetRemote {σ : Type} (h : LibraryPanelHandler σ) (resource : Resource) (s : σ) :
    Outcome σ Resource :=
  GetByUID h resource.Name s

/-- The handler's `ListRemote()`. -/
def ListRemote {σ : Type} (h : LibraryPanelHandler σ) (s : σ) :
    Option (Outcome σ (List String)) :=
  getRemoteLibraryPanelList h s

/-- The handler's `Add(resource)`. -/
def Add {σ : Type} (h : LibraryPanelHandler σ) (resource : Resource) (s : σ) : Outcome σ Unit :=
  postLibraryPanel h resource s

/-- The handler's `Update(existing, resource)`. -/
def Update {σ : Type} (h : LibraryPanelHandler σ) (_existing resource : Resource) (s : σ) :
    Outcome σ Unit :=
  putLibraryPanel h resource s

/-! ## A stub remote service

A test double for the remote service: it stores what create requests carry and
serves it back on get-by-UID. Its state is the list of stored elements, most
recent first. -/

/-- The element the stub stores for a create request: the fields the request
carries, and as service-managed id the element's position in the store. -/
def stubStore (body : CreateLibraryElementCommand) (store : List LibraryElementDTO) :
    LibraryElementDTO :=
  { FolderID := body.FolderID, FolderUID := body.FolderUID, ID := store.length + 1,
    Kind := body.Kind, Model := body.Model, Name := body.Name, UID := body.UID, Version := 0 }

/-- The stub's patch of one stored element. -/
def stubPatch (uid : String) (body : PatchLibraryElementCommand) (e : LibraryElementDTO) :
    LibraryElementDTO :=
  if e.UID == uid then
    { e with FolderID := body.FolderID, FolderUID := body.FolderUID, Kind := body.Kind,
             Model := body.Model, Name := body.Name, Version := body.Version }
  else e

/-- The stub service as a `LibraryElements` client over its store. -/
def stubClient : LibraryElements (List LibraryElementDTO) where
  GetLibraryElements := fun store =>
    (Except.ok ⟨⟨store.reverse, store.length⟩⟩, store)
  GetLibraryElementByUID := fun uid store =>
    match store.find? (fun e => e.UID == uid) with
    | some e => (Except.ok ⟨e⟩, store)
    | none => (Except.error Error.GetLibraryElementByUIDNotFound, store)
  CreateLibraryElement := fun body store =>
    (Except.ok ⟨stubStore body store⟩, stubStore body store :: store)
  UpdateLibraryElement := fun uid body store =>
    match store.find? (fun e => e.UID == uid) with
    | some e => (Except.ok ⟨stubPatch uid body e⟩, store.map (stubPatch uid body))
    | none => (Except.error (Error.message "library element not found"), store)

/-- A handler whose provider yields the stub client. -/
def stubHandler (apiVersion : String) : LibraryPanelHandler (List LibraryElementDTO) :=
  ⟨⟨apiVersion, Except.ok stubClient⟩⟩

/-! ## Inputs used to instantiate the theorems -/

/-- A resource whose specification declares no `uid`. -/
def panelNoUID : Resource :=
  ⟨"grizzly.grafana.com/v1alpha1", "LibraryPanel", "cpu", [("name", Value.str "CPU usage")]⟩

/-- A resource whose specification declares its own name as `uid`, next to a
service-managed `id`. -/
def panelWithUID : Resource :=
  ⟨"grizzly.grafana.com/v1alpha1", "LibraryPanel", "cpu",
    [("id", Value.num 7), ("uid", Value.str "cpu"), ("name", Value.str "CPU usage"),
     ("model", Value.obj [("type", Value.str "graph")])]⟩

/-- A resource whose declared `uid` differs from its name. -/
def panelWrongUID : Resource :=
  ⟨"grizzly.grafana.com/v1alpha1", "LibraryPanel", "cpu", [("uid", Value.str "mem")]⟩

/-- A client whose list endpoint answers with a fixed response and whose
other endpoints are out of service. -/
def listClient (resp : Except Error LibraryElementSearchResponse) : LibraryElements Unit where
  GetLibraryElements := fun s => (resp, s)
  GetLibraryElementByUID := fun _ s => (Except.error (Error.message "unavailable"), s)
  CreateLibraryElement := fun _ s => (Except.error (Error.message "unavailable"), s)
  UpdateLibraryElement := fun _ _ s => (Except.error (Error.message "unavailable"), s)

/-- A handler over `listClient`. -/
def listHandler (resp : Except Error LibraryElementSearchResponse) : LibraryPanelHandler Unit :=
  ⟨⟨"grizzly.grafana.com/v1alpha1", Except.ok (listClient resp)⟩⟩

/-- A handler whose provider fails to yield a client. -/
def noClientHandler : LibraryPanelHandler Unit :=
  ⟨⟨"grizzly.grafana.com/v1alpha1", Except.error (Error.message "no grafana client")⟩⟩

/-- The element "cpu" as a list response reports it. -/
def cpuElement : LibraryElementDTO :=
  { FolderID := 0, FolderUID := "", ID := 1, Kind := 1, Model := Value.null,
    Name := "CPU usage", UID := "cpu", Version := 1 }

/-- One page of a larger collection: one element reported, total count two. -/
def firstPageOfTwo : LibraryElementSearchResponse :=
  ⟨⟨[cpuElement], 2⟩⟩

/-- A response reporting one element and a total count of zero. -/
def oneElementCountZero : LibraryElementSearchResponse :=
  ⟨⟨[cpuElement], 0⟩⟩

/-- A response reporting one element and a total count of 2^62, more than
`make` accepts. -/
def oneElementCountHuge : LibraryElementSearchResponse :=
  ⟨⟨[cpuElement], 2 ^ 62⟩⟩

/-- A client whose get-by-UID endpoint fails with a fixed error. -/
def failingGetClient (err : Error) : LibraryElements Unit where
  GetLibraryElements := fun s => (Except.error err, s)
  GetLibraryElementByUID := fun _ s => (Except.error err, s)
  CreateLibraryElement := fun _ s => (Except.error err, s)
  UpdateLibraryElement := fun _ _ s => (Except.error err, s)

/-- A handler over `failingGetClient`. -/
def failingGetHandler (err : Error) : LibraryPanelHandler Unit :=
  ⟨⟨"grizzly.grafana.com/v1alpha1", Except.ok (failingGetClient err)⟩⟩

/-! ## Specification map lemmas -/

theorem lookup_filter_ne (key k : String) (l : List (String × Value)) :
    (l.filter (fun kv => kv.1 != k)).lookup key = if key = k then none else l.lookup key := by
  induction l with
  | nil => simp [List.lookup]
  | cons kv rest ih =>
    obtain ⟨a, v⟩ := kv
    by_cases hak : a = k
    · subst hak
      by_cases hka : key = a
      · subst hka
        simpa [List.filter] using ih
      · have hb : (key == a) = false := by simpa using hka
        simp [List.filter, List.lookup, hb, ih, hka]
    · have hf : (a != k) = true := by simpa using hak
      by_cases hka : key = a
      · subst hka
        simp [List.filter, hf, List.lookup, hak]
      · have hb : (key == a) = false := by simpa using hka
        simp [List.filter, hf, List.lookup, hb, ih]

/-! ## Validation -/

/-- C1: Validate returns no error when the specification declares no "uid" or
declares a "uid" equal to the resource's name, returns an error when the
declared "uid" differs from the name, and in every case leaves the resource as
it was. -/
theorem Validate_uid_contract (r : Resource) :
    (r.spec.lookup "uid" = none → Validate r = some (none, r)) ∧
    (r.spec.lookup "uid" = some (Value.str r.Name) → Validate r = some (none, r)) ∧
    (∀ u : String, r.spec.lookup "uid" = some (Value.str u) → u ≠ r.Name →
      Validate r = some (some (Error.message
        (Sprintf "uid '%s' and name '%s', don't match" [u, r.Name])), r)) := by
  refine ⟨?_, ?_, ?_⟩
  · intro h
    simp [Validate, Resource.GetSpecString, h]
  · intro h
    simp [Validate, Resource.GetSpecString, h]
  · intro u h hne
    simp [Validate, Resource.GetSpecString, h, hne]

/-- Instances of C1: a resource without "uid" and one whose "uid" is its name
validate; one whose "uid" is "mem" while its name is "cpu" is rejected. -/
theorem Validate_uid_contract_witness :
    Validate panelNoUID = some (none, panelNoUID) ∧
    Validate panelWithUID = some (none, panelWithUID) ∧
    Validate panelWrongUID =
      some (some (Error.message "uid 'mem' and name 'cpu', don't match"), panelWrongUID) :=
  ⟨(Validate_uid_contract panelNoUID).1 rfl,
   (Validate_uid_contract panelWithUID).2.1 rfl,
   (Validate_uid_contract panelWrongUID).2.2 "mem" rfl (by decide)⟩

/-! ## Prepare and Unprepare -/

/-- C3: Prepare returns the resource unchanged, and Unprepare of it has no "id"
in its specification while keeping apiVersion, kind, name and every other
specification key with its value. -/
theorem Unprepare_Prepare_frame (existing r : Resource) :
    Prepare existing r = r ∧
    (Unprepare (Prepare existing r)).spec.lookup "id" = none ∧
    (Unprepare (Prepare existing r)).apiVersion = r.apiVersion ∧
    (Unprepare (Prepare existing r)).kind = r.kind ∧
    (Unprepare (Prepare existing r)).name = r.name ∧
    (∀ key : String, key ≠ "id" →
      (Unprepare (Prepare existing r)).spec.lookup key = r.spec.lookup key) := by
  refine ⟨rfl, ?_, rfl, rfl, rfl, ?_⟩
  · simp [Unprepare, Prepare, Resource.DeleteSpecKey, lookup_filter_ne]
  · intro key hkey
    simp [Unprepare, Prepare, Resource.DeleteSpecKey, lookup_filter_ne, hkey]

/-- Instance of C3: the key "uid" of a resource that also carries "id". -/
theorem Unprepare_Prepare_frame_witness :
    (Unprepare (Prepare panelNoUID panelWithUID)).spec.lookup "uid" =
      panelWithUID.spec.lookup "uid" :=
  (Unprepare_Prepare_frame panelNoUID panelWithUID).2.2.2.2.2 "uid" (by decide)

/-- C4: Unprepare is idempotent. -/
theorem Unprepare_idempotent (r : Resource) : Unprepare (Unprepare r) = Unprepare r := by
  simp [Unprepare, Resource.DeleteSpecKey, List.filter_filter]

/-! ## File naming -/

/-- C9: ResourceFilePath is "library-panel/library-panel-" followed by the
name, a dot and the filetype; with the default extension of GetExtension the
path is "library-panel/library-panel-<name>.json". -/
theorem ResourceFilePath_format (r : Resource) (f : String) :
    ResourceFilePath r f = "library-panel/library-panel-" ++ r.Name ++ "." ++ f ∧
    GetExtension = "json" ∧
    ResourceFilePath r GetExtension = "library-panel/library-panel-" ++ r.Name ++ ".json" := by
  refine ⟨?_, rfl, ?_⟩
  · apply String.ext
    simp [ResourceFilePath, Sprintf, libraryPanelPattern, sprintfChars, String.data_append]
  · apply String.ext
    simp [ResourceFilePath, Sprintf, libraryPanelPattern, sprintfChars, String.data_append,
      GetExtension]

/-! ## Listing remote UIDs -/

theorem fillUIDs_eq (es : List LibraryElementDTO) :
    ∀ (i : Nat) (uids : List String), i + es.length ≤ uids.length →
      fillUIDs es i uids =
        some (uids.take i ++ es.map (fun e => e.UID) ++ uids.drop (i + es.length)) := by
  induction es with
  | nil => intro i uids _; simp [fillUIDs]
  | cons e rest ih =>
    intro i uids hlen
    have hi : i < uids.length := by simp at hlen; omega
    have hlen2 : (i + 1) + rest.length ≤ (uids.set i e.UID).length := by
      simp at hlen ⊢; omega
    have hti : (uids.take i).length = i := by simp; omega
    have h1 : (uids.set i e.UID).take (i + 1) = uids.take i ++ [e.UID] := by
      rw [List.set_eq_take_append_cons_drop, if_pos hi, List.take_append_eq_append_take, hti]
      simp [List.take_take]
    have h2 : (uids.set i e.UID).drop (i + 1 + rest.length) = uids.drop (i + 1 + rest.length) :=
      List.drop_set_of_lt _ _ (by omega)
    simp only [fillUIDs, hi, if_true, ih (i + 1) (uids.set i e.UID) hlen2, h1, h2]
    simp [Nat.add_comm, Nat.add_left_comm]

/-- C10, as the code has it: when the reported TotalCount is at least the
number of elements and is a length `make` accepts (TotalCount strings of 16
bytes within the 2^48-byte allocation limit), the UID list is built without an
out-of-range write and is the elements' UIDs in response order followed by
TotalCount - len(Elements) empty strings, of length exactly TotalCount. -/
theorem getRemoteLibraryPanelList_padded {σ : Type} (h : LibraryPanelHandler σ) (s s1 : σ)
    (client : LibraryElements σ) (panelsOk : LibraryElementSearchResponse)
    (hc : h.Provider.Client = Except.ok client)
    (hl : client.GetLibraryElements s = (Except.ok panelsOk, s1))
    (hn : (panelsOk.Result.Elements.length : Int) ≤ panelsOk.Result.TotalCount)
    (hmax : stringSize * panelsOk.Result.TotalCount.toNat ≤ maxAlloc) :
    ∃ uids : List String,
      getRemoteLibraryPanelList h s = some ⟨Except.ok uids, s1, [Request.GetLibraryElements]⟩ ∧
      fillUIDs panelsOk.Result.Elements 0
        (List.replicate panelsOk.Result.TotalCount.toNat "") = some uids ∧
      (uids.length : Int) = panelsOk.Result.TotalCount ∧
      uids.take panelsOk.Result.Elements.length =
        panelsOk.Result.Elements.map (fun e => e.UID) ∧
      uids.drop panelsOk.Result.Elements.length =
        List.replicate (panelsOk.Result.TotalCount.toNat - panelsOk.Result.Elements.length) "" := by
  have hpos : ¬ panelsOk.Result.TotalCount < 0 := by omega
  have hfit : ¬ maxAlloc < stringSize * panelsOk.Result.TotalCount.toNat := by omega
  have hlen : 0 + panelsOk.Result.Elements.length ≤
      (List.replicate panelsOk.Result.TotalCount.toNat "").length := by
    simp; omega
  have hfill := fillUIDs_eq panelsOk.Result.Elements 0
    (List.replicate panelsOk.Result.TotalCount.toNat "") hlen
  simp only [List.take_zero, List.nil_append, Nat.zero_add, List.drop_replicate] at hfill
  refine ⟨_, ?_, hfill, ?_, ?_, ?_⟩
  · simp [getRemoteLibraryPanelList, hc, hl, makeStrings, hpos, hfit, hfill]
  · simp; omega
  · simp [List.take_append_eq_append_take]
  · simp [List.drop_append_eq_append_drop]

/-- Instance of C10 as amended: one reported element with a total count of
two. -/
theorem getRemoteLibraryPanelList_padded_witness :
    ∃ uids : List String,
      getRemoteLibraryPanelList (listHandler (Except.ok firstPageOfTwo)) () =
        some ⟨Except.ok uids, (), [Request.GetLibraryElements]⟩ ∧
      fillUIDs firstPageOfTwo.Result.Elements 0
        (List.replicate firstPageOfTwo.Result.TotalCount.toNat "") = some uids ∧
      (uids.length : Int) = firstPageOfTwo.Result.TotalCount ∧
      uids.take firstPageOfTwo.Result.Elements.length =
        firstPageOfTwo.Result.Elements.map (fun e => e.UID) ∧
      uids.drop firstPageOfTwo.Result.Elements.length =
        List.replicate
          (firstPageOfTwo.Result.TotalCount.toNat - firstPageOfTwo.Result.Elements.length) "" :=
  getRemoteLibraryPanelList_padded (listHandler (Except.ok firstPageOfTwo)) () ()
    (listClient (Except.ok firstPageOfTwo)) firstPageOfTwo rfl rfl (by decide) (by decide)

/-- C10 fails as stated. A successful list response reports one element and a
TotalCount of 2^62, which is at least the number of elements; `make` does not
accept that length, so no sequence of length TotalCount is returned: the call
ends in a run-time panic. -/
theorem getRemoteLibraryPanelList_huge_counterexample :
    (oneElementCountHuge.Result.Elements.length : Int) ≤ oneElementCountHuge.Result.TotalCount ∧
    makeStrings oneElementCountHuge.Result.TotalCount = none ∧
    getRemoteLibraryPanelList (listHandler (Except.ok oneElementCountHuge)) () = none := by
  refine ⟨by decide, by decide, ?_⟩
  have hm : makeStrings oneElementCountHuge.Result.TotalCount = none := by decide
  simp [getRemoteLibraryPanelList, listHandler, listClient, hm]

/-- C2 at a response whose TotalCount differs from its number of elements:
for one element "cpu" and TotalCount 2, ListRemote returns the two entries
"cpu" and "", not the one UID of the response; for one element and TotalCount
0 the UID write is out of range and nothing is returned. -/
theorem ListRemote_sized_by_TotalCount :
    ListRemote (listHandler (Except.ok firstPageOfTwo)) () =
      some ⟨Except.ok ["cpu", ""], (), [Request.GetLibraryElements]⟩ ∧
    firstPageOfTwo.Result.Elements.map (fun e => e.UID) = ["cpu"] ∧
    ListRemote (listHandler (Except.ok oneElementCountZero)) () = none := by
  refine ⟨rfl, rfl, rfl⟩

/-! ## Fetching by UID -/

/-- C6: GetByUID returns the sentinel ErrNotFound when the get-by-UID call
fails with the service's not-found response, and returns the very error of the
client acquisition or of the call in every other failure; no resource is
returned in either case. -/
theorem GetByUID_failures {σ : Type} (h : LibraryPanelHandler σ) (uid : String) (s : σ) :
    (∀ err : Error, h.Provider.Client = Except.error err →
      GetByUID h uid s = ⟨Except.error err, s, []⟩) ∧
    (∀ (client : LibraryElements σ) (err : Error) (s1 : σ),
      h.Provider.Client = Except.ok client →
      client.GetLibraryElementByUID uid s = (Except.error err, s1) →
      (err.AsGetLibraryElementByUIDNotFound = true →
        (GetByUID h uid s).ret = Except.error Error.ErrNotFound) ∧
      (err.AsGetLibraryElementByUIDNotFound = false →
        (GetByUID h uid s).ret = Except.error err)) := by
  refine ⟨?_, ?_⟩
  · intro err hc
    simp [GetByUID, getRemoteLibraryPanel, hc]
  · intro client err s1 hc hg
    constructor
    · intro has
      simp [GetByUID, getRemoteLibraryPanel, hc, hg, has]
    · intro has
      simp [GetByUID, getRemoteLibraryPanel, hc, hg, has]

/-- Instances of C6: a missing UID on the stub service, a transport failure of
the call, and a failed client acquisition. -/
theorem GetByUID_failures_witness :
    (GetByUID (stubHandler "grizzly.grafana.com/v1alpha1") "missing" []).ret =
      Except.error Error.ErrNotFound ∧
    (GetByUID (failingGetHandler (Error.message "connection refused")) "cpu" ()).ret =
      Except.error (Error.message "connection refused") ∧
    GetByUID noClientHandler "cpu" () =
      ⟨Except.error (Error.message "no grafana client"), (), []⟩ :=
  ⟨((GetByUID_failures (stubHandler "grizzly.grafana.com/v1alpha1") "missing" []).2
      stubClient Error.GetLibraryElementByUIDNotFound [] rfl rfl).1 rfl,
   ((GetByUID_failures (failingGetHandler (Error.message "connection refused")) "cpu" ()).2
      (failingGetClient (Error.message "connection refused"))
      (Error.message "connection refused") () rfl rfl).2 rfl,
   (GetByUID_failures noClientHandler "cpu" ()).1 (Error.message "no grafana client") rfl⟩

/-! ## Creating and updating -/

/-- C7: when the specification decodes into the create-request shape and a
client is obtained, Add submits exactly one create request, carrying the
resource's name, its UID and its full specification map as Model (the other
fields as decoded), and returns the outcome of that request. -/
theorem Add_submits_one_create {σ : Type} (h : LibraryPanelHandler σ) (r : Resource) (s : σ)
    (client : LibraryElements σ) (data : Value) (panel0 : CreateLibraryElementCommand)
    (hm : jsonMarshal r.Spec = Except.ok data)
    (hd : unmarshalCreateLibraryElementCommand data = Except.ok panel0)
    (hc : h.Provider.Client = Except.ok client) :
    ∃ body : CreateLibraryElementCommand,
      body.Name = r.Name ∧ body.UID = r.UID ∧ body.Model = Value.obj r.Spec ∧
      body.FolderID = panel0.FolderID ∧ body.FolderUID = panel0.FolderUID ∧
      body.Kind = panel0.Kind ∧
      (Add h r s).sent = [Request.CreateLibraryElement body] ∧
      (Add h r s).state = (client.CreateLibraryElement body s).2 ∧
      (∀ err : Error, (client.CreateLibraryElement body s).1 = Except.error err →
        (Add h r s).ret = Except.error err) ∧
      (∀ resp : LibraryElementResponse,
        (client.CreateLibraryElement body s).1 = Except.ok resp →
        (Add h r s).ret = Except.ok ()) := by
  refine ⟨{ panel0 with Name := r.Name, UID := r.UID, Model := Value.obj r.Spec },
    rfl, rfl, rfl, rfl, rfl, rfl, ?_⟩
  have hrun : Add h r s =
      match client.CreateLibraryElement
        { panel0 with Name := r.Name, UID := r.UID, Model := Value.obj r.Spec } s with
      | (Except.error err, s1) =>
        ⟨Except.error err, s1, [Request.CreateLibraryElement
          { panel0 with Name := r.Name, UID := r.UID, Model := Value.obj r.Spec }]⟩
      | (Except.ok _, s1) =>
        ⟨Except.ok (), s1, [Request.CreateLibraryElement
          { panel0 with Name := r.Name, UID := r.UID, Model := Value.obj r.Spec }]⟩ := by
    simp [Add, postLibraryPanel, hm, hd, hc]
  rw [hrun]
  rcases hres : client.CreateLibraryElement
    { panel0 with Name := r.Name, UID := r.UID, Model := Value.obj r.Spec } s with ⟨res, s1⟩
  cases res with
  | error e => simp
  | ok resp => simp

/-- Instance of C7: a resource added through the stub service. -/
theorem Add_submits_one_create_witness :
    ∃ body : CreateLibraryElementCommand,
      body.Name = "cpu" ∧ body.UID = "cpu" ∧ body.Model = Value.obj panelWithUID.Spec ∧
      (Add (stubHandler "grizzly.grafana.com/v1alpha1") panelWithUID []).sent =
        [Request.CreateLibraryElement body] ∧
      (Add (stubHandler "grizzly.grafana.com/v1alpha1") panelWithUID []).ret = Except.ok () :=
  have ⟨body, hn, hu, hmo, _, _, _, hs, _, _, hok⟩ :=
    Add_submits_one_create (stubHandler "grizzly.grafana.com/v1alpha1") panelWithUID []
      stubClient
      (Value.obj [("id", Value.num 7), ("model", Value.obj [("type", Value.str "graph")]),
        ("name", Value.str "CPU usage"), ("uid", Value.str "cpu")])
      ⟨0, "", 0, Value.obj [("type", Value.str "graph")], "CPU usage", "cpu"⟩ rfl rfl rfl
  ⟨body, hn, hu, hmo, hs, hok _ rfl⟩

/-- C8 at a resource without "uid": the resource named "cpu" with
specification {name: "CPU usage"} passes Validate and a client is obtained, yet
the one patch request of Update is addressed to the empty UID, not to the
resource's name "cpu" that GetUID returns and that Add puts into the create
request for the same resource. -/
theorem Update_patches_empty_UID :
    Validate panelNoUID = some (none, panelNoUID) ∧
    GetUID panelNoUID = Except.ok "cpu" ∧
    (Update (stubHandler "grizzly.grafana.com/v1alpha1") panelNoUID panelNoUID []).sent =
      [Request.UpdateLibraryElement "" ⟨0, "", 0, Value.null, "CPU usage", "", 0⟩] ∧
    (Add (stubHandler "grizzly.grafana.com/v1alpha1") panelNoUID []).sent =
      [Request.CreateLibraryElement
        ⟨0, "", 0, Value.obj [("name", Value.str "CPU usage")], "cpu", "cpu"⟩] :=
  ⟨rfl, rfl, rfl, rfl⟩

/-! ## Create followed by fetch, on the stub service -/

/-- C5 at a resource added to the empty stub service: Add of the resource
named "cpu" succeeds and GetByUID "cpu" succeeds, but the returned
specification is built from the whole response, not from the element's model:
its only key is "result", the submitted specification sits at result.model, it
has no "uid" of its own where the submitted one has "cpu", it differs from the
submitted specification, and Unprepare finds no top-level "id" to remove. -/
theorem Add_GetByUID_returns_whole_payload :
    (Add (stubHandler "grizzly.grafana.com/v1alpha1") panelWithUID []).ret = Except.ok () ∧
    ∃ res : Resource,
      (GetByUID (stubHandler "grizzly.grafana.com/v1alpha1") panelWithUID.UID
        (Add (stubHandler "grizzly.grafana.com/v1alpha1") panelWithUID []).state).ret =
          Except.ok res ∧
      res.spec.map Prod.fst = ["result"] ∧
      (∃ fields : List (String × Value),
        res.spec.lookup "result" = some (Value.obj fields) ∧
        fields.lookup "model" = some (Value.obj panelWithUID.spec) ∧
        fields.lookup "id" = some (Value.num 1)) ∧
      res.spec.lookup "uid" = none ∧
      panelWithUID.spec.lookup "uid" = some (Value.str "cpu") ∧
      res.spec ≠ panelWithUID.spec ∧
      (Unprepare res).spec = res.spec := by
  refine ⟨rfl, _, rfl, rfl, ⟨_, rfl, rfl, rfl⟩, rfl, rfl, ?_, rfl⟩
  intro heq
  have hl := congrArg (List.lookup "uid") heq
  simp [NewResource, panelWithUID, List.lookup] at hl

end Grizzly
